import Mathlib

/-!
Verification of the DXIL metadata codec (DxilMetadataHelper.cpp) against its
natural-language specification.  The C++ source is shallowly embedded: LLVM
metadata nodes become an inductive type, the codec's emit/load routines become
Lean functions over that type, machine integers become `Nat`/`Int` with the
casts written out explicitly, and the single DXC_E_INCORRECT_DXIL_METADATA
fault (raised through the IFTBOOL macro) becomes `Except Unit`.
-/

namespace Dxil

/-! ## Metadata node model

An `llvm::Metadata` value as seen by the codec: constant-int scalars carry the
APInt bit width and the (unsigned) bit pattern, `tuple` is an `MDTuple` whose
operands may be null (`MDOperand` = `Option Metadata`), `value` is a
`ValueAsMetadata` handle to an external symbol, and the two constant-array
shapes model `ConstantDataArray` / `ConstantAggregateZero` payloads. -/
inductive Metadata where
  | constInt (width : Nat) (val : Nat)
  | constFloat (bits : Nat)
  | constAggZero (eltWidth : Nat)
  | constDataArray (eltWidth : Nat) (vals : List Nat)
  | str (s : String)
  | value (vid : Nat)
  | tuple (ops : List (Option Metadata))

/-- Operand list of an `MDNode` (each slot is a nullable `MDOperand`). -/
abbrev MDNodeOps := List (Option Metadata)

/-- IFTBOOL(p, DXC_E_INCORRECT_DXIL_METADATA): raise the single malformed
container metadata fault when `p` does not hold. -/
def IFTBOOL (p : Prop) [Decidable p] : Except Unit Unit :=
  if p then .ok () else .error ()

/-! ## Scalar/value codec

`(int8_t)x`, `(int32_t)x` casts of an unsigned 64-bit value: reinterpret the
low bits in two's complement. -/

/-- Cast of an unsigned value to `int8_t`. -/
def castInt8 (v : Nat) : Int :=
  if v % 256 < 128 then ((v % 256 : Nat) : Int) else ((v % 256 : Nat) : Int) - 256

/-- Cast of an unsigned value to `int32_t`. -/
def castInt32 (v : Nat) : Int :=
  if v % 4294967296 < 2147483648 then ((v % 4294967296 : Nat) : Int)
  else ((v % 4294967296 : Nat) : Int) - 4294967296

/-- DxilMDHelper::Int32ToConstMD: APInt(32, v), i.e. the 32-bit two's
complement bit pattern of `v`. -/
def Int32ToConstMD (v : Int) : Metadata :=
  .constInt 32 (v % 4294967296).toNat

/-- DxilMDHelper::Uint32ToConstMD: APInt(32, v). -/
def Uint32ToConstMD (v : Nat) : Metadata :=
  .constInt 32 (v % 4294967296)

/-- DxilMDHelper::Int8ToConstMD: APInt(8, v). -/
def Int8ToConstMD (v : Int) : Metadata :=
  .constInt 8 (v % 256).toNat

/-- DxilMDHelper::Uint8ToConstMD: APInt(8, v). -/
def Uint8ToConstMD (v : Nat) : Metadata :=
  .constInt 8 (v % 256)

/-- DxilMDHelper::BoolToConstMD: APInt(1, v ? 1 : 0). -/
def BoolToConstMD (v : Bool) : Metadata :=
  .constInt 1 (if v then 1 else 0)

/-- mdconst::extract of a ConstantInt from an operand, followed by the null
check `IFTBOOL(pConst != nullptr, ...)`: yields the APInt (width, bit pattern)
when the operand is a constant-int scalar; any other operand (null included)
takes the fault path. -/
def extractConstInt : Option Metadata → Except Unit (Nat × Nat)
  | some (.constInt w v) => .ok (w, v)
  | _ => .error ()

/-- DxilMDHelper::ConstMDToInt32: `(int32_t)pConst->getZExtValue()`. -/
def ConstMDToInt32 (MDO : Option Metadata) : Except Unit Int := do
  let (_, v) ← extractConstInt MDO
  pure (castInt32 v)

/-- DxilMDHelper::ConstMDToUint32: `(unsigned)pConst->getZExtValue()`. -/
def ConstMDToUint32 (MDO : Option Metadata) : Except Unit Nat := do
  let (_, v) ← extractConstInt MDO
  pure (v % 4294967296)

/-- DxilMDHelper::ConstMDToUint64: `pConst->getZExtValue()`. -/
def ConstMDToUint64 (MDO : Option Metadata) : Except Unit Nat := do
  let (_, v) ← extractConstInt MDO
  pure (v % 18446744073709551616)

/-- DxilMDHelper::ConstMDToInt8: `(int8_t)pConst->getZExtValue()`. -/
def ConstMDToInt8 (MDO : Option Metadata) : Except Unit Int := do
  let (_, v) ← extractConstInt MDO
  pure (castInt8 v)

/-- DxilMDHelper::ConstMDToUint8: `(uint8_t)pConst->getZExtValue()`. -/
def ConstMDToUint8 (MDO : Option Metadata) : Except Unit Nat := do
  let (_, v) ← extractConstInt MDO
  pure (v % 256)

/-- DxilMDHelper::ConstMDToBool: `pConst->getZExtValue() != 0`. -/
def ConstMDToBool (MDO : Option Metadata) : Except Unit Bool := do
  let (_, v) ← extractConstInt MDO
  pure (v != 0)

/-- DxilMDHelper::StringMDToString: `dyn_cast<MDString>` plus null check. -/
def StringMDToString (MDO : Option Metadata) : Except Unit String :=
  match MDO with
  | some (.str s) => .ok s
  | _ => .error ()

/-- DxilMDHelper::ValueMDToValue: null check, `dyn_cast<ValueAsMetadata>`,
null check on the contained value. -/
def ValueMDToValue (MDO : Option Metadata) : Except Unit Nat :=
  match MDO with
  | some (.value vid) => .ok vid
  | _ => .error ()

/-- DxilMDHelper::Uint32VectorToConstMDTuple. -/
def Uint32VectorToConstMDTuple (Vec : List Nat) : Metadata :=
  .tuple (Vec.map (fun v => some (Uint32ToConstMD v)))

/-- DxilMDHelper::ConstMDTupleToUint32Vector (over the tuple's operand
list; the enclosing null/tuple checks are done by the callers). -/
def ConstMDTupleToUint32Vector : MDNodeOps → Except Unit (List Nat)
  | [] => .ok []
  | o :: rest => do
    let v ← ConstMDToUint32 o
    let vs ← ConstMDTupleToUint32Vector rest
    pure (v :: vs)

/-! ## Named top-level entries and the module

A `NamedMDNode` owns a name and an append-only list of `MDNode` operands.
The module also carries the per-instruction data used by the precise-marker
passes (§ further below) and the came-from-bitcode flag. -/

/-- One call / floating-point instruction view: the facts about an
`llvm::Instruction` the precise-marker passes read and write.
`relaxedAlgebra` is the FastMathFlags unsafe-algebra bit; `precise` records
whether the instruction carries the dx.precise metadata marker. -/
structure Instruction where
  isFPMath : Bool
  isCall : Bool
  relaxedAlgebra : Bool
  precise : Bool
deriving DecidableEq, Repr

/-- A named top-level entry (`llvm::NamedMDNode`). -/
structure NamedMD where
  name : String
  operands : List MDNodeOps

/-- The enclosing container (`llvm::Module`), restricted to what the codec
touches: named metadata, the instruction list, and the bitcode-origin flag. -/
structure LLVMModule where
  namedMD : List NamedMD
  fromBitCode : Bool
  instrs : List Instruction

/-- String constant kDxilVersionMDName. -/
def kDxilVersionMDName : String := "dx.version"

/-- String constant kDxilValidatorVersionMDName. -/
def kDxilValidatorVersionMDName : String := "dx.valver"

/-- String constant kDxilViewIdStateMDName. -/
def kDxilViewIdStateMDName : String := "dx.viewIdState"

/-- Modelled from the spec: the field-index constants for the version records
live in DxilMetadataHelper.h, which is not under src/; §4.4 of the spec fixes
the record as the ordered pair (major, minor). -/
def kDxilVersionMajorIdx : Nat := 0

/-- Minor index of a version record (see kDxilVersionMajorIdx). -/
def kDxilVersionMinorIdx : Nat := 1

/-- Arity of a version record. -/
def kDxilVersionNumFields : Nat := 2

/-- Module::getNamedMetadata: look a named entry up by name. -/
def getNamedMetadata (m : LLVMModule) (n : String) : Option NamedMD :=
  m.namedMD.find? (fun e => e.name == n)

/-- Module::eraseNamedMetadata: remove the named entry. -/
def eraseNamedMetadata (m : LLVMModule) (n : String) : LLVMModule :=
  { m with namedMD := m.namedMD.filter (fun e => !(e.name == n)) }

/-- Module::getOrInsertNamedMetadata followed by NamedMDNode::addOperand:
append `node` to the named entry, creating the entry when absent. -/
def addNamedOperand (m : LLVMModule) (n : String) (node : MDNodeOps) : LLVMModule :=
  if (getNamedMetadata m n).isSome then
    { m with namedMD := m.namedMD.map (fun e =>
        if e.name == n then { e with operands := e.operands ++ [node] } else e) }
  else
    { m with namedMD := m.namedMD ++ [⟨n, [node]⟩] }

/-- DxilMDHelper::EmitDxilVersion: fault when the dx.version entry already
exists, otherwise append the (major, minor) tuple.  The field order in the
emitted list realises kDxilVersionMajorIdx/kDxilVersionMinorIdx. -/
def EmitDxilVersion (m : LLVMModule) (Major Minor : Nat) : Except Unit LLVMModule := do
  IFTBOOL (getNamedMetadata m kDxilVersionMDName).isNone
  pure (addNamedOperand m kDxilVersionMDName
    [some (Uint32ToConstMD Major), some (Uint32ToConstMD Minor)])

/-- DxilMDHelper::LoadDxilVersion. -/
def LoadDxilVersion (m : LLVMModule) : Except Unit (Nat × Nat) := do
  match getNamedMetadata m kDxilVersionMDName with
  | none => throw ()
  | some nmd => do
    IFTBOOL (nmd.operands.length = 1)
    let ops := nmd.operands.getD 0 []
    IFTBOOL (ops.length = kDxilVersionNumFields)
    let Major ← ConstMDToUint32 (ops.getD kDxilVersionMajorIdx none)
    let Minor ← ConstMDToUint32 (ops.getD kDxilVersionMinorIdx none)
    pure (Major, Minor)

/-- DxilMDHelper::EmitValidatorVersion: erase an existing dx.valver entry
("Allow re-writing the validator version"), then insert the new tuple.
Never faults. -/
def EmitValidatorVersion (m : LLVMModule) (Major Minor : Nat) : LLVMModule :=
  let m1 :=
    if (getNamedMetadata m kDxilValidatorVersionMDName).isSome then
      eraseNamedMetadata m kDxilValidatorVersionMDName
    else m
  addNamedOperand m1 kDxilValidatorVersionMDName
    [some (Uint32ToConstMD Major), some (Uint32ToConstMD Minor)]

/-- DxilMDHelper::LoadValidatorVersion: absence defaults to version 1.0. -/
def LoadValidatorVersion (m : LLVMModule) : Except Unit (Nat × Nat) := do
  match getNamedMetadata m kDxilValidatorVersionMDName with
  | none => pure (1, 0)
  | some nmd => do
    IFTBOOL (nmd.operands.length = 1)
    let ops := nmd.operands.getD 0 []
    IFTBOOL (ops.length = kDxilVersionNumFields)
    let Major ← ConstMDToUint32 (ops.getD kDxilVersionMajorIdx none)
    let Minor ← ConstMDToUint32 (ops.getD kDxilVersionMinorIdx none)
    pure (Major, Minor)

/-! ## View-id state blob -/

/-- Modelled from the spec: DxilViewIdState (ComputeViewIdState.cpp is not
under src/) is the external model object whose GetSerialized returns the
32-bit word array and whose Deserialize replaces it; the codec "only
wraps/unwraps the byte buffer" (§4.4). -/
structure DxilViewIdState where
  serialized : List Nat
deriving DecidableEq, Repr

/-- ConstantDataArray::get: LLVM canonicalises an all-zero element array to
ConstantAggregateZero, otherwise builds a ConstantDataArray. -/
def ConstantDataArrayGet (eltWidth : Nat) (data : List Nat) : Metadata :=
  if data.all (fun e => e == 0) then .constAggZero eltWidth
  else .constDataArray eltWidth data

/-- DxilMDHelper::EmitDxilViewIdState: "If all UINTs are zero, do not emit
ViewIdState" (early return leaving the module untouched); otherwise fault on
a pre-existing entry and append the one-field tuple wrapping the blob. -/
def EmitDxilViewIdState (ViewIdState : DxilViewIdState) (m : LLVMModule) :
    Except Unit LLVMModule := do
  if ViewIdState.serialized.any (fun e => e != 0) then do
    let V := ConstantDataArrayGet 32 ViewIdState.serialized
    IFTBOOL (getNamedMetadata m kDxilViewIdStateMDName).isNone
    pure (addNamedOperand m kDxilViewIdStateMDName [some V])
  else
    pure m

/-- DxilMDHelper::LoadDxilViewIdState: a missing entry returns with the model
untouched; a ConstantAggregateZero payload likewise returns early; a
ConstantDataArray must have i32 elements and a well-formed byte size and is
handed to ViewIdState.Deserialize (modelled from the spec as replacing the
serialized word array). -/
def LoadDxilViewIdState (m : LLVMModule) (ViewIdState : DxilViewIdState) :
    Except Unit DxilViewIdState := do
  match getNamedMetadata m kDxilViewIdStateMDName with
  | none => pure ViewIdState
  | some nmd => do
    IFTBOOL (nmd.operands.length = 1)
    let ops := nmd.operands.getD 0 []
    IFTBOOL (ops.length = 1)
    match ops.getD 0 none with
    | some (.constAggZero _) => pure ViewIdState
    | some (.constDataArray w vals) => do
      IFTBOOL (w = 32)
      -- byte size: getRawDataValues().size() = 4 * number of i32 elements
      IFTBOOL (4 * vals.length < 4294967295 ∧ (4 * vals.length) % 4 = 0)
      pure { ViewIdState with serialized := vals }
    | _ => throw ()

/-! ## Precise-marker passes

The C++ walks every function, basic block and instruction of the module; the
embedding flattens that triple loop into one pass over the module's
instruction list.  Only instructions that are FPMathOperators *and* CallInsts
are touched. -/

/-- Per-instruction action of DxilMDHelper::EmitDxilPreciseMD: when the
unsafe-algebra flag is clear, attach the dx.precise marker; when it is set,
clear the fast-math flags (copyFastMathFlags(FastMathFlags{})) and set the
marker metadata to null. -/
def emitPreciseInstr (i : Instruction) : Instruction :=
  if i.isFPMath && i.isCall then
    if !i.relaxedAlgebra then { i with precise := true }
    else { i with relaxedAlgebra := false, precise := false }
  else i

/-- DxilMDHelper::EmitDxilPreciseMD. -/
def EmitDxilPreciseMD (m : LLVMModule) : LLVMModule :=
  { m with instrs := m.instrs.map emitPreciseInstr }

/-- Per-instruction action of DxilMDHelper::LoadDxilPreciseMD: without a
marker, copy in fast-math flags with unsafe algebra set; with a marker,
remove the marker (the flags are left as they are). -/
def loadPreciseInstr (i : Instruction) : Instruction :=
  if i.isFPMath && i.isCall then
    if !i.precise then { i with relaxedAlgebra := true }
    else { i with precise := false }
  else i

/-- DxilMDHelper::LoadDxilPreciseMD: performed only when the module came from
persisted bitcode (m_pModule->GetFromBitCode()). -/
def LoadDxilPreciseMD (m : LLVMModule) : LLVMModule :=
  if !m.fromBitCode then m
  else { m with instrs := m.instrs.map loadPreciseInstr }

/-! ## Signature elements -/

/-- Modelled from the spec: the signature-element field-index table lives in
DxilMetadataHelper.h (not under src/); §4.4 fixes the core field order as
id, name, component type, semantic kind, index-vector sub-tuple,
interpolation mode, rows, cols, start row, start col, followed by the sparse
name-value list slot. -/
def kDxilSignatureElementID : Nat := 0

/-- Name index of a signature-element record. -/
def kDxilSignatureElementName : Nat := 1

/-- Component-type index of a signature-element record. -/
def kDxilSignatureElementType : Nat := 2

/-- Semantic-kind (system value) index of a signature-element record. -/
def kDxilSignatureElementSystemValue : Nat := 3

/-- Semantic-index-vector index of a signature-element record. -/
def kDxilSignatureElementIndexVector : Nat := 4

/-- Interpolation-mode index of a signature-element record. -/
def kDxilSignatureElementInterpMode : Nat := 5

/-- Rows index of a signature-element record. -/
def kDxilSignatureElementRows : Nat := 6

/-- Cols index of a signature-element record. -/
def kDxilSignatureElementCols : Nat := 7

/-- Start-row index of a signature-element record. -/
def kDxilSignatureElementStartRow : Nat := 8

/-- Start-col index of a signature-element record. -/
def kDxilSignatureElementStartCol : Nat := 9

/-- Sparse name-value list slot of a signature-element record. -/
def kDxilSignatureElementNameValueList : Nat := 10

/-- Operand count of a signature-element record (10 core + the sparse slot). -/
def kDxilSignatureElementNumFields : Nat := 11

/-- Modelled from the spec: sparse tag codes for signature elements are
assigned in DxilMetadataHelper.h (not under src/); the spec (§4.3) fixes the
tag *set* — output stream, high-level global symbol, dynamic-index component
mask — and the concrete 32-bit codes only need to be distinct. -/
def kDxilSignatureElementOutputStreamTag : Nat := 0

/-- Tag code for the high-level global-symbol extended property. -/
def kHLSignatureElementGlobalSymbolTag : Nat := 1

/-- Tag code for the dynamic-index component mask extended property. -/
def kDxilSignatureElementDynIdxCompMaskTag : Nat := 2

/-- The DxilSignatureElement external model object, reduced to the persisted
fields the codec reads through getters and writes through
Initialize/SetKind/SetOutputStream/SetDynIdxCompMask.  Field types follow the
C++ getters: unsigned for ID/Rows/Cols/stream/mask, int for the start
row/column, small enums as their numeric kinds. -/
structure DxilSignatureElement where
  ID : Nat
  Name : String
  CompTy : Nat
  SemKind : Nat
  SemanticIndexVec : List Nat
  InterpMode : Nat
  Rows : Nat
  Cols : Nat
  StartRow : Int
  StartCol : Int
  OutputStream : Nat
  DynIdxCompMask : Nat
deriving DecidableEq, Repr

/-- DxilExtraPropertyHelper::EmitSignatureElementProperties: a (tag, value)
pair is appended only for a non-zero output stream and a non-zero
dynamic-index component mask. -/
def EmitSignatureElementProperties (SE : DxilSignatureElement) : List Metadata :=
  (if SE.OutputStream ≠ 0 then
    [Uint32ToConstMD kDxilSignatureElementOutputStreamTag,
     Uint32ToConstMD SE.OutputStream]
   else []) ++
  (if SE.DynIdxCompMask ≠ 0 then
    [Uint32ToConstMD kDxilSignatureElementDynIdxCompMaskTag,
     Uint32ToConstMD SE.DynIdxCompMask]
   else [])

/-- Tag-value pair loop of
DxilExtraPropertyHelper::LoadSignatureElementProperties.  The global-symbol
tag is accepted and skipped; an unrecognized tag only trips a DXASSERT, which
is a no-op outside debug builds, so the pair is skipped as well. -/
def loadSigElemPropPairs : MDNodeOps → DxilSignatureElement →
    Except Unit DxilSignatureElement
  | [], SE => .ok SE
  | t :: v :: rest, SE => do
    let Tag ← ConstMDToUint32 t
    if Tag = kDxilSignatureElementOutputStreamTag then do
      let s ← ConstMDToUint32 v
      loadSigElemPropPairs rest { SE with OutputStream := s }
    else if Tag = kHLSignatureElementGlobalSymbolTag then
      loadSigElemPropPairs rest SE
    else if Tag = kDxilSignatureElementDynIdxCompMaskTag then do
      let s ← ConstMDToUint32 v
      loadSigElemPropPairs rest { SE with DynIdxCompMask := s }
    else
      -- DXASSERT(false, "Unknown signature element tag"): no-op in release.
      loadSigElemPropPairs rest SE
  | [_], _ => .error ()   -- unreachable: the caller enforces even length

/-- DxilExtraPropertyHelper::LoadSignatureElementProperties: a null operand
is fine (no extended properties); otherwise the node must be a tuple of even
length, processed pairwise. -/
def LoadSignatureElementProperties (MDO : Option Metadata)
    (SE : DxilSignatureElement) : Except Unit DxilSignatureElement := do
  match MDO with
  | none => pure SE
  | some (.tuple ops) => do
    IFTBOOL (ops.length % 2 = 0)
    loadSigElemPropPairs ops SE
  | some _ => throw ()

/-- DxilMDHelper::EmitSignatureElement.  The (uint8_t)/(int8_t) casts the C++
applies before Uint8ToConstMD/Int8ToConstMD keep exactly the low 8 bits,
which is what APInt(8, v) keeps as well, so the casts are absorbed into the
scalar emitters. -/
def EmitSignatureElement (SE : DxilSignatureElement) : Metadata :=
  let MDExtraVals := EmitSignatureElementProperties SE
  .tuple [
    some (Uint32ToConstMD SE.ID),
    some (.str SE.Name),
    some (Uint8ToConstMD SE.CompTy),
    some (Uint8ToConstMD SE.SemKind),
    some (Uint32VectorToConstMDTuple SE.SemanticIndexVec),
    some (Uint8ToConstMD SE.InterpMode),
    some (Uint32ToConstMD SE.Rows),
    some (Uint8ToConstMD SE.Cols),
    some (Int32ToConstMD SE.StartRow),
    some (Int8ToConstMD SE.StartCol),
    if MDExtraVals.isEmpty then none else some (.tuple (MDExtraVals.map some))]

/-- DxilMDHelper::LoadSignatureElement: null/tuple/arity checks, the ten core
fields decoded at their fixed indices, SE.Initialize + SE.SetKind writing the
decoded values into the element, then the extended properties. -/
def LoadSignatureElement (MDO : Option Metadata) (SE : DxilSignatureElement) :
    Except Unit DxilSignatureElement := do
  match MDO with
  | some (.tuple ops) => do
    IFTBOOL (ops.length = kDxilSignatureElementNumFields)
    let ID ← ConstMDToUint32 (ops.getD kDxilSignatureElementID none)
    let pName : Option String :=
      match ops.getD kDxilSignatureElementName none with
      | some (.str s) => some s
      | _ => none
    let CT ← ConstMDToUint8 (ops.getD kDxilSignatureElementType none)
    let SemKind ← ConstMDToUint8 (ops.getD kDxilSignatureElementSystemValue none)
    let pSemanticIndexVectorMD : Option MDNodeOps :=
      match ops.getD kDxilSignatureElementIndexVector none with
      | some (.tuple t) => some t
      | _ => none
    let IM ← ConstMDToUint8 (ops.getD kDxilSignatureElementInterpMode none)
    let NumRows ← ConstMDToUint32 (ops.getD kDxilSignatureElementRows none)
    let NumCols ← ConstMDToUint8 (ops.getD kDxilSignatureElementCols none)
    let StartRow ← ConstMDToInt32 (ops.getD kDxilSignatureElementStartRow none)
    let StartCol ← ConstMDToInt8 (ops.getD kDxilSignatureElementStartCol none)
    IFTBOOL pName.isSome
    IFTBOOL pSemanticIndexVectorMD.isSome
    let SemanticIndexVector ← ConstMDTupleToUint32Vector (pSemanticIndexVectorMD.getD [])
    -- SE.Initialize(Name, CT, IM, NumRows, NumCols, StartRow, StartCol, ID, vec)
    -- and SE.SetKind(SemKind): the external model setters store the fields.
    let SE := { SE with
      ID := ID, Name := pName.getD "", CompTy := CT, SemKind := SemKind,
      SemanticIndexVec := SemanticIndexVector, InterpMode := IM,
      Rows := NumRows, Cols := NumCols, StartRow := StartRow, StartCol := StartCol }
    LoadSignatureElementProperties (ops.getD kDxilSignatureElementNameValueList none) SE
  | _ => throw ()

/-! ## Resources -/

/-- DXIL::ResourceKind::RawBuffer (DxilConstants.h). -/
def DxilResourceKindRawBuffer : Nat := 11

/-- DXIL::ResourceKind::StructuredBuffer (DxilConstants.h). -/
def DxilResourceKindStructuredBuffer : Nat := 12

/-- DXIL::ResourceKind::CBuffer (DxilConstants.h). -/
def DxilResourceKindCBuffer : Nat := 13

/-- DXIL::ResourceKind::TBuffer (DxilConstants.h). -/
def DxilResourceKindTBuffer : Nat := 15

/-- Modelled from the spec: resource record field indices live in
DxilMetadataHelper.h (not under src/); §4.4 fixes the base prefix order as
id, global-symbol ref, global name, space id, lower bound, range size. -/
def kDxilResourceBaseID : Nat := 0

/-- Global-symbol index of the resource base prefix. -/
def kDxilResourceBaseVariable : Nat := 1

/-- Global-name index of the resource base prefix. -/
def kDxilResourceBaseName : Nat := 2

/-- Space-id index of the resource base prefix. -/
def kDxilResourceBaseSpaceID : Nat := 3

/-- Lower-bound index of the resource base prefix. -/
def kDxilResourceBaseLowerBound : Nat := 4

/-- Range-size index of the resource base prefix. -/
def kDxilResourceBaseRangeSize : Nat := 5

/-- Arity of the resource base prefix. -/
def kDxilResourceBaseNumFields : Nat := 6

/-- Shape index of an SRV record (base + 0). -/
def kDxilSRVShape : Nat := 6

/-- Sample-count index of an SRV record. -/
def kDxilSRVSampleCount : Nat := 7

/-- Sparse name-value list slot of an SRV record. -/
def kDxilSRVNameValueList : Nat := 8

/-- Operand count of an SRV record. -/
def kDxilSRVNumFields : Nat := 9

/-- Shape index of a UAV record (base + 0). -/
def kDxilUAVShape : Nat := 6

/-- Globally-coherent index of a UAV record. -/
def kDxilUAVGloballyCoherent : Nat := 7

/-- Has-counter index of a UAV record. -/
def kDxilUAVCounter : Nat := 8

/-- Rasterizer-ordered-view index of a UAV record. -/
def kDxilUAVRasterizerOrderedView : Nat := 9

/-- Sparse name-value list slot of a UAV record. -/
def kDxilUAVNameValueList : Nat := 10

/-- Operand count of a UAV record. -/
def kDxilUAVNumFields : Nat := 11

/-- Modelled from the spec: sparse tag codes for resources (§4.3) — typed
buffer element type, structured buffer element stride, tbuffer marker — have
their 32-bit codes assigned in DxilMetadataHelper.h (not under src/); only
distinctness matters here. -/
def kDxilTypedBufferElementTypeTag : Nat := 0

/-- Tag code for the structured-buffer element stride extended property. -/
def kDxilStructuredBufferElementStrideTag : Nat := 1

/-- Tag code for the cbuffer-is-tbuffer extended property. -/
def kHLCBufferIsTBufferTag : Nat := 2

/-- The DxilResource external model object (SRV/UAV specialisation of
DxilResourceBase), reduced to the persisted fields the codec touches.
`rw` is the read-write flag written by SetRW. -/
structure DxilResource where
  id : Nat
  globalSymbol : Nat
  globalName : String
  spaceID : Nat
  lowerBound : Nat
  rangeSize : Nat
  rw : Bool
  kind : Nat
  sampleCount : Nat
  globallyCoherent : Bool
  hasCounter : Bool
  rov : Bool
  elementStride : Nat
  compType : Nat
deriving DecidableEq, Repr

/-- The DxilCBuffer external model object, reduced to the persisted fields
the property codec touches. -/
structure DxilCBuffer where
  id : Nat
  globalSymbol : Nat
  globalName : String
  spaceID : Nat
  lowerBound : Nat
  rangeSize : Nat
  kind : Nat
  size : Nat
deriving DecidableEq, Repr

/-- The DxilSampler external model object, reduced to the persisted fields
the property codec touches. -/
structure DxilSampler where
  id : Nat
  globalSymbol : Nat
  globalName : String
  spaceID : Nat
  lowerBound : Nat
  rangeSize : Nat
  samplerKind : Nat
deriving DecidableEq, Repr

/-- DxilMDHelper::LoadDxilResourceBase: null/tuple check, arity at least the
base prefix, then the six core fields decoded at their fixed indices.  The
C++ stores them through the base-class setters; the embedding returns the
decoded tuple (ID, symbol, name, space, lower bound, range size) and each
caller stores it into its own record type. -/
def LoadDxilResourceBase (MDO : Option Metadata) :
    Except Unit (Nat × Nat × String × Nat × Nat × Nat) := do
  match MDO with
  | some (.tuple ops) => do
    IFTBOOL (kDxilResourceBaseNumFields ≤ ops.length)
    let id ← ConstMDToUint32 (ops.getD kDxilResourceBaseID none)
    let sym ← ValueMDToValue (ops.getD kDxilResourceBaseVariable none)
    let nm ← StringMDToString (ops.getD kDxilResourceBaseName none)
    let sp ← ConstMDToUint32 (ops.getD kDxilResourceBaseSpaceID none)
    let lb ← ConstMDToUint32 (ops.getD kDxilResourceBaseLowerBound none)
    let rs ← ConstMDToUint32 (ops.getD kDxilResourceBaseRangeSize none)
    pure (id, sym, nm, sp, lb, rs)
  | _ => throw ()

/-- Tag-value pair loop shared by DxilExtraPropertyHelper::LoadSRVProperties
and ::LoadUAVProperties (the two C++ bodies are identical): the typed-buffer
element type and structured-buffer stride tags store their values; an
unrecognized tag only trips a DXASSERT (no-op outside debug builds) and is
skipped. -/
def loadBufferPropPairs : MDNodeOps → DxilResource → Except Unit DxilResource
  | [], R => .ok R
  | t :: v :: rest, R => do
    let Tag ← ConstMDToUint32 t
    if Tag = kDxilTypedBufferElementTypeTag then do
      let ct ← ConstMDToUint32 v
      loadBufferPropPairs rest { R with compType := ct }
    else if Tag = kDxilStructuredBufferElementStrideTag then do
      let es ← ConstMDToUint32 v
      loadBufferPropPairs rest { R with elementStride := es }
    else
      -- DXASSERT(false, "Unknown resource record tag"): no-op in release.
      loadBufferPropPairs rest R
  | [_], _ => .error ()   -- unreachable: the caller enforces even length

/-- DxilExtraPropertyHelper::LoadSRVProperties: first reset the optional
fields to their context defaults (stride 1 for raw buffers else 4, invalid
component type), then override from the even-length tag-value list. -/
def LoadSRVProperties (MDO : Option Metadata) (SRV : DxilResource) :
    Except Unit DxilResource := do
  let SRV := { SRV with
    elementStride := if SRV.kind = DxilResourceKindRawBuffer then 1 else 4,
    compType := 0 }
  match MDO with
  | none => pure SRV
  | some (.tuple ops) => do
    IFTBOOL (ops.length % 2 = 0)
    loadBufferPropPairs ops SRV
  | some _ => throw ()

/-- DxilExtraPropertyHelper::LoadUAVProperties: identical to the SRV case. -/
def LoadUAVProperties (MDO : Option Metadata) (UAV : DxilResource) :
    Except Unit DxilResource := do
  let UAV := { UAV with
    elementStride := if UAV.kind = DxilResourceKindRawBuffer then 1 else 4,
    compType := 0 }
  match MDO with
  | none => pure UAV
  | some (.tuple ops) => do
    IFTBOOL (ops.length % 2 = 0)
    loadBufferPropPairs ops UAV
  | some _ => throw ()

/-- Tag-value pair loop of DxilExtraPropertyHelper::LoadCBufferProperties:
the tbuffer tag overrides the resource kind; an unrecognized tag only trips
a DXASSERT (no-op outside debug builds) and is skipped. -/
def loadCBufferPropPairs : MDNodeOps → DxilCBuffer → Except Unit DxilCBuffer
  | [], CB => .ok CB
  | t :: v :: rest, CB => do
    let Tag ← ConstMDToUint32 t
    if Tag = kHLCBufferIsTBufferTag then do
      let b ← ConstMDToBool v
      if b then loadCBufferPropPairs rest { CB with kind := DxilResourceKindTBuffer }
      else loadCBufferPropPairs rest CB
    else
      -- DXASSERT(false, "Unknown cbuffer tag"): no-op in release.
      loadCBufferPropPairs rest CB
  | [_], _ => .error ()   -- unreachable: the caller enforces even length

/-- DxilExtraPropertyHelper::LoadCBufferProperties: a null operand leaves the
record untouched; otherwise reset the kind to CBuffer and process the
even-length tag-value list. -/
def LoadCBufferProperties (MDO : Option Metadata) (CB : DxilCBuffer) :
    Except Unit DxilCBuffer := do
  match MDO with
  | none => pure CB
  | some (.tuple ops) => do
    IFTBOOL (ops.length % 2 = 0)
    loadCBufferPropPairs ops { CB with kind := DxilResourceKindCBuffer }
  | some _ => throw ()

/-- DxilExtraPropertyHelper::LoadSamplerProperties: the C++ body is empty
("Nothing yet."), so nothing is parsed and nothing can fail. -/
def LoadSamplerProperties (_MDO : Option Metadata) (S : DxilSampler) :
    Except Unit DxilSampler :=
  .ok S

/-- DxilMDHelper::LoadDxilSRV: null/tuple/arity checks, SetRW(false) before
anything else, then the base prefix, the SRV payload and the extended
properties. -/
def LoadDxilSRV (MDO : Option Metadata) (SRV : DxilResource) :
    Except Unit DxilResource := do
  match MDO with
  | some (.tuple ops) => do
    IFTBOOL (ops.length = kDxilSRVNumFields)
    let SRV := { SRV with rw := false }
    let (id, sym, nm, sp, lb, rs) ← LoadDxilResourceBase MDO
    let SRV := { SRV with id := id, globalSymbol := sym, globalName := nm,
                          spaceID := sp, lowerBound := lb, rangeSize := rs }
    let kind ← ConstMDToUint32 (ops.getD kDxilSRVShape none)
    let sc ← ConstMDToUint32 (ops.getD kDxilSRVSampleCount none)
    let SRV := { SRV with kind := kind, sampleCount := sc }
    LoadSRVProperties (ops.getD kDxilSRVNameValueList none) SRV
  | _ => throw ()

/-- DxilMDHelper::LoadDxilUAV: null/tuple/arity checks, SetRW(true) before
anything else, then the base prefix, the UAV payload and the extended
properties. -/
def LoadDxilUAV (MDO : Option Metadata) (UAV : DxilResource) :
    Except Unit DxilResource := do
  match MDO with
  | some (.tuple ops) => do
    IFTBOOL (ops.length = kDxilUAVNumFields)
    let UAV := { UAV with rw := true }
    let (id, sym, nm, sp, lb, rs) ← LoadDxilResourceBase MDO
    let UAV := { UAV with id := id, globalSymbol := sym, globalName := nm,
                          spaceID := sp, lowerBound := lb, rangeSize := rs }
    let kind ← ConstMDToUint32 (ops.getD kDxilUAVShape none)
    let gc ← ConstMDToBool (ops.getD kDxilUAVGloballyCoherent none)
    let hc ← ConstMDToBool (ops.getD kDxilUAVCounter none)
    let rov ← ConstMDToBool (ops.getD kDxilUAVRasterizerOrderedView none)
    let UAV := { UAV with kind := kind, globallyCoherent := gc,
                          hasCounter := hc, rov := rov }
    LoadUAVProperties (ops.getD kDxilUAVNameValueList none) UAV
  | _ => throw ()

/-! ## Type-system annotations -/

/-- Modelled from the spec: field-annotation tag codes are assigned in
DxilMetadataHelper.h (not under src/); §4.3/§4.4 fix the tag set — precise
flag, matrix shape, cbuffer byte offset, semantic string, interpolation
mode, field name, component type — and only distinctness matters here. -/
def kDxilFieldAnnotationPreciseTag : Nat := 0

/-- Tag code for the matrix-shape field annotation. -/
def kDxilFieldAnnotationMatrixTag : Nat := 1

/-- Tag code for the cbuffer-byte-offset field annotation. -/
def kDxilFieldAnnotationCBufferOffsetTag : Nat := 2

/-- Tag code for the semantic-string field annotation. -/
def kDxilFieldAnnotationSemanticStringTag : Nat := 3

/-- Tag code for the interpolation-mode field annotation. -/
def kDxilFieldAnnotationInterpolationModeTag : Nat := 4

/-- Tag code for the field-name field annotation. -/
def kDxilFieldAnnotationFieldNameTag : Nat := 5

/-- Tag code for the component-type field annotation. -/
def kDxilFieldAnnotationCompTypeTag : Nat := 6

/-- The DxilFieldAnnotation external model object: wholly sparse, each
optional field is absent until its Set* setter runs (the Has*/Get* pairs are
modelled by `Option`); the precise flag is a plain bool. -/
structure DxilFieldAnnotation where
  precise : Bool
  matrixAnnotation : Option (Nat × Nat × Nat)
  cbufferOffset : Option Nat
  semanticString : Option String
  interpMode : Option Nat
  fieldName : Option String
  compType : Option Nat
deriving DecidableEq, Repr

/-- Tag-value pair loop of DxilMDHelper::LoadDxilFieldAnnotation.  Each pair's
value operand must be non-null; recognized tags store their decoded value;
an unrecognized tag is a hard IFTBOOL(false) failure. -/
def loadFieldAnnotationPairs : MDNodeOps → DxilFieldAnnotation →
    Except Unit DxilFieldAnnotation
  | [], FA => .ok FA
  | t :: v :: rest, FA => do
    let Tag ← ConstMDToUint32 t
    IFTBOOL v.isSome
    if Tag = kDxilFieldAnnotationPreciseTag then do
      let b ← ConstMDToBool v
      loadFieldAnnotationPairs rest { FA with precise := b }
    else if Tag = kDxilFieldAnnotationMatrixTag then
      match v with
      | some (.tuple mops) => do
        IFTBOOL (mops.length = 3)
        let r ← ConstMDToUint32 (mops.getD 0 none)
        let c ← ConstMDToUint32 (mops.getD 1 none)
        let o ← ConstMDToUint32 (mops.getD 2 none)
        loadFieldAnnotationPairs rest { FA with matrixAnnotation := some (r, c, o) }
      | _ => throw ()
    else if Tag = kDxilFieldAnnotationCBufferOffsetTag then do
      let off ← ConstMDToUint32 v
      loadFieldAnnotationPairs rest { FA with cbufferOffset := some off }
    else if Tag = kDxilFieldAnnotationSemanticStringTag then do
      let s ← StringMDToString v
      loadFieldAnnotationPairs rest { FA with semanticString := some s }
    else if Tag = kDxilFieldAnnotationInterpolationModeTag then do
      let im ← ConstMDToUint32 v
      loadFieldAnnotationPairs rest { FA with interpMode := some im }
    else if Tag = kDxilFieldAnnotationFieldNameTag then do
      let s ← StringMDToString v
      loadFieldAnnotationPairs rest { FA with fieldName := some s }
    else if Tag = kDxilFieldAnnotationCompTypeTag then do
      let ct ← ConstMDToUint32 v
      loadFieldAnnotationPairs rest { FA with compType := some ct }
    else
      -- default: IFTBOOL(false, DXC_E_INCORRECT_DXIL_METADATA)
      throw ()
  | [_], _ => .error ()   -- unreachable: the caller enforces even length

/-- DxilMDHelper::LoadDxilFieldAnnotation: null/tuple checks, even length,
then the tag-value pairs. -/
def LoadDxilFieldAnnotation (MDO : Option Metadata) (FA : DxilFieldAnnotation) :
    Except Unit DxilFieldAnnotation := do
  match MDO with
  | some (.tuple ops) => do
    IFTBOOL (ops.length % 2 = 0)
    loadFieldAnnotationPairs ops FA
  | _ => throw ()

/-- A struct field type as far as the codec inspects it: the empty-struct
special case only compares the single element type against i8
(Type::getInt8Ty). -/
inductive LLVMType where
  | int (width : Nat)
  | float
  | structTy (tid : Nat)
  | other (tid : Nat)
deriving DecidableEq, Repr

/-- The DxilStructAnnotation external model object.  `structEltTys` models
GetStructType()'s element types; `fieldAnnotations` holds one annotation per
field (GetNumFields is its length — DxilTypeSystem.cpp is not under src/, so,
modelled from the spec, MarkEmptyStruct "marks the struct empty", i.e. leaves
the annotation with zero fields so the arity-1 check succeeds). -/
structure DxilStructAnnotation where
  structEltTys : List LLVMType
  fieldAnnotations : List DxilFieldAnnotation
  cbufferSize : Nat
deriving DecidableEq, Repr

/-- Field loop of DxilMDHelper::LoadDxilStructAnnotation: operand i+1 loads
into field annotation i (the caller's arity check makes the list lengths
equal). -/
def loadStructFields : MDNodeOps → List DxilFieldAnnotation →
    Except Unit (List DxilFieldAnnotation)
  | [], [] => .ok []
  | o :: os, f :: fs => do
    let f2 ← LoadDxilFieldAnnotation o f
    let fs2 ← loadStructFields os fs
    pure (f2 :: fs2)
  | _, _ => .error ()   -- unreachable: the caller enforces equal lengths

/-- DxilMDHelper::LoadDxilStructAnnotation: a length-1 tuple annotating a
struct whose single field is i8 marks the struct empty (MarkEmptyStruct)
before the arity check `numOperands == GetNumFields() + 1`; then the cbuffer
size is stored and each field annotation loaded. -/
def LoadDxilStructAnnotation (MDO : Option Metadata) (SA : DxilStructAnnotation) :
    Except Unit DxilStructAnnotation := do
  match MDO with
  | some (.tuple ops) => do
    let SA :=
      if ops.length = 1 then
        if SA.structEltTys.length = 1 then
          if SA.structEltTys.getD 0 (.other 0) = .int 8 then
            { SA with fieldAnnotations := [] }   -- SA.MarkEmptyStruct()
          else SA
        else SA
      else SA
    IFTBOOL (ops.length = SA.fieldAnnotations.length + 1)
    let size ← ConstMDToUint32 (ops.getD 0 none)
    let fas ← loadStructFields (ops.drop 1) SA.fieldAnnotations
    pure { SA with cbufferSize := size, fieldAnnotations := fas }
  | _ => throw ()

end Dxil

deriving instance DecidableEq for Except

namespace Dxil

/-! ## General lemmas about the embedding -/

/-- Bind on a successful Except computation. -/
@[simp] theorem exceptBindOk (a : α) (f : α → Except Unit β) :
    ((Except.ok a : Except Unit α) >>= f) = f a := rfl

/-- Bind on a failed Except computation. -/
@[simp] theorem exceptBindErr (f : α → Except Unit β) :
    ((Except.error () : Except Unit α) >>= f) = .error () := rfl

/-- Pure is ok. -/
@[simp] theorem exceptPureOk (a : α) : (pure a : Except Unit α) = .ok a := rfl

/-- IFTBOOL on a satisfied condition. -/
theorem IFTBOOL_pos {p : Prop} [Decidable p] (h : p) : IFTBOOL p = .ok () := by
  simp [IFTBOOL, h]

/-- IFTBOOL on a violated condition. -/
theorem IFTBOOL_neg {p : Prop} [Decidable p] (h : ¬p) : IFTBOOL p = .error () := by
  simp [IFTBOOL, h]

/-- Inversion of a successful Except bind. -/
theorem except_bind_ok_iff {x : Except Unit α} {f : α → Except Unit β} {b : β} :
    (x >>= f) = .ok b ↔ ∃ a, x = .ok a ∧ f a = .ok b := by
  cases x with
  | error e => cases e; simp
  | ok a => simp

/-- Emitting then decoding a uint32 truncates once. -/
theorem uint32_emit_decode (v : Nat) :
    ConstMDToUint32 (some (Uint32ToConstMD v)) = .ok (v % 4294967296) := by
  simp [ConstMDToUint32, Uint32ToConstMD, extractConstInt]

/-- Round trip of an in-range uint32. -/
theorem uint32_round_trip (v : Nat) (h : v < 4294967296) :
    ConstMDToUint32 (some (Uint32ToConstMD v)) = .ok v := by
  simp [uint32_emit_decode, Nat.mod_eq_of_lt h]

/-- Round trip of an in-range uint8. -/
theorem uint8_round_trip (v : Nat) (h : v < 256) :
    ConstMDToUint8 (some (Uint8ToConstMD v)) = .ok v := by
  simp [ConstMDToUint8, Uint8ToConstMD, extractConstInt]
  omega

/-- The int32 cast undoes the 32-bit two's complement encoding. -/
theorem castInt32_emod (v : Int) (h1 : -2147483648 ≤ v) (h2 : v < 2147483648) :
    castInt32 (v % 4294967296).toNat = v := by
  unfold castInt32
  split <;> omega

/-- Round trip of an in-range int32. -/
theorem int32_round_trip (v : Int) (h1 : -2147483648 ≤ v) (h2 : v < 2147483648) :
    ConstMDToInt32 (some (Int32ToConstMD v)) = .ok v := by
  simp [ConstMDToInt32, Int32ToConstMD, extractConstInt, castInt32_emod v h1 h2]

/-- The int8 cast undoes the 8-bit two's complement encoding. -/
theorem castInt8_emod (v : Int) (h1 : -128 ≤ v) (h2 : v < 128) :
    castInt8 (v % 256).toNat = v := by
  unfold castInt8
  split <;> omega

/-- Round trip of an in-range int8. -/
theorem int8_round_trip (v : Int) (h1 : -128 ≤ v) (h2 : v < 128) :
    ConstMDToInt8 (some (Int8ToConstMD v)) = .ok v := by
  simp [ConstMDToInt8, Int8ToConstMD, extractConstInt, castInt8_emod v h1 h2]

/-- Round trip of a uint32 vector through the tuple codec. -/
theorem uint32_vector_round_trip (l : List Nat) (h : ∀ x ∈ l, x < 4294967296) :
    ConstMDTupleToUint32Vector (l.map (fun v => some (Uint32ToConstMD v))) = .ok l := by
  induction l with
  | nil => rfl
  | cons x xs ih =>
    simp only [List.map_cons, ConstMDTupleToUint32Vector,
      uint32_round_trip x (h x (by simp)), exceptBindOk,
      ih (fun y hy => h y (by simp [hy])), exceptPureOk]

/-- Erasing a named entry makes it unfindable. -/
theorem getNamed_erase (m : LLVMModule) (n : String) :
    getNamedMetadata (eraseNamedMetadata m n) n = none := by
  simp only [getNamedMetadata, eraseNamedMetadata, List.find?_eq_none, List.mem_filter]
  intro e he
  simpa using he.2

/-- Appending a fresh named entry makes it findable with exactly the one
operand. -/
theorem getNamed_add_absent (m : LLVMModule) (n : String) (node : MDNodeOps)
    (h : getNamedMetadata m n = none) :
    getNamedMetadata (addNamedOperand m n node) n = some ⟨n, [node]⟩ := by
  simp only [addNamedOperand, h, Option.isSome_none, Bool.false_eq_true, if_false]
  simp only [getNamedMetadata] at h ⊢
  simp [List.find?_append, h, List.find?]

/-! ## Claim theorems -/

/-- C2 (amended): the scalar decoders check only that the operand is an
integer constant; the APInt width is ignored and the value is truncated to
the decoder's own width, so an integer node of any width (int32 included)
decodes through the int8 decoder without the malformed-metadata fault.
Non-integer operands (null, strings, tuples) do fault. -/
theorem scalar_decoders_accept_any_width (w v : Nat) :
    ConstMDToInt8 (some (.constInt w v)) = .ok (castInt8 v) ∧
    ConstMDToUint8 (some (.constInt w v)) = .ok (v % 256) ∧
    ConstMDToUint32 (some (.constInt w v)) = .ok (v % 4294967296) ∧
    ConstMDToInt32 (some (.constInt w v)) = .ok (castInt32 v) ∧
    ConstMDToBool (some (.constInt w v)) = .ok (v != 0) ∧
    ConstMDToInt8 none = .error () ∧
    (∀ s, ConstMDToInt8 (some (.str s)) = .error ()) ∧
    (∀ t, ConstMDToUint32 (some (.tuple t)) = .error ()) :=
  ⟨rfl, rfl, rfl, rfl, rfl, rfl, fun _ => rfl, fun _ => rfl⟩

/-- C2 counterexample: the int8 decoder applied to a 32-bit-wide integer
node holding the int32 bit pattern of -1 succeeds (returning -1) instead of
raising the malformed-metadata fault required by the claim. -/
theorem int8_decode_from_int32_node :
    ConstMDToInt8 (some (.constInt 32 4294967295)) = .ok (-1) := by decide

/-- C4: emitting the dx.version entry a second time on the same container
faults and the first emission still loads back; emitting the dx.valver entry
twice succeeds by replacement, the second value winning. -/
theorem version_entry_duplicate_guard (m m1 m2 : LLVMModule) (a b c d : Nat)
    (h : EmitDxilVersion m a b = .ok m1) :
    EmitDxilVersion m1 c d = .error () ∧
    LoadDxilVersion m1 = .ok (a % 4294967296, b % 4294967296) ∧
    LoadValidatorVersion (EmitValidatorVersion (EmitValidatorVersion m2 a b) c d) =
      .ok (c % 4294967296, d % 4294967296) := by
  by_cases hc : getNamedMetadata m kDxilVersionMDName = none
  case neg =>
    rw [EmitDxilVersion, IFTBOOL_neg (by simpa using hc)] at h
    simp at h
  case pos =>
    rw [EmitDxilVersion, IFTBOOL_pos (by simp [hc])] at h
    simp only [exceptBindOk, exceptPureOk, Except.ok.injEq] at h
    have hfound :
        getNamedMetadata m1 kDxilVersionMDName =
          some ⟨kDxilVersionMDName,
            [[some (Uint32ToConstMD a), some (Uint32ToConstMD b)]]⟩ := by
      rw [← h]
      exact getNamed_add_absent m _ _ hc
    refine ⟨?_, ?_, ?_⟩
    · rw [EmitDxilVersion, IFTBOOL_neg (by simp [hfound])]
      simp
    · rw [LoadDxilVersion, hfound]
      simp only [List.length_cons, List.length_nil, IFTBOOL_pos, exceptBindOk,
        List.getD]
      rw [IFTBOOL_pos (by simp [kDxilVersionNumFields])]
      simp [kDxilVersionMajorIdx, kDxilVersionMinorIdx, uint32_emit_decode]
    · have hinner :
          getNamedMetadata (EmitValidatorVersion (EmitValidatorVersion m2 a b) c d)
            kDxilValidatorVersionMDName =
          some ⟨kDxilValidatorVersionMDName,
            [[some (Uint32ToConstMD c), some (Uint32ToConstMD d)]]⟩ := by
        rw [EmitValidatorVersion]
        split
        · exact getNamed_add_absent _ _ _ (getNamed_erase _ _)
        · next hn =>
          have hn2 : getNamedMetadata (EmitValidatorVersion m2 a b)
              kDxilValidatorVersionMDName = none := by
            cases h2 : getNamedMetadata (EmitValidatorVersion m2 a b)
              kDxilValidatorVersionMDName with
            | none => rfl
            | some x => simp [h2] at hn
          exact getNamed_add_absent _ _ _ hn2
      rw [LoadValidatorVersion, hinner]
      simp only [List.length_cons, List.length_nil, IFTBOOL_pos, exceptBindOk,
        List.getD]
      rw [IFTBOOL_pos (by simp [kDxilVersionNumFields])]
      simp [kDxilVersionMajorIdx, kDxilVersionMinorIdx, uint32_emit_decode]

/-- C4 witness: the guard exercised on a concrete empty container with
version 1.2 then 3.4. -/
theorem version_entry_duplicate_guard_witness :
    EmitDxilVersion
      ⟨[⟨kDxilVersionMDName, [[some (Uint32ToConstMD 1), some (Uint32ToConstMD 2)]]⟩],
        false, []⟩ 3 4 = .error () ∧
    LoadDxilVersion
      ⟨[⟨kDxilVersionMDName, [[some (Uint32ToConstMD 1), some (Uint32ToConstMD 2)]]⟩],
        false, []⟩ = .ok (1 % 4294967296, 2 % 4294967296) ∧
    LoadValidatorVersion
      (EmitValidatorVersion (EmitValidatorVersion ⟨[], false, []⟩ 1 2) 3 4) =
      .ok (3 % 4294967296, 4 % 4294967296) :=
  version_entry_duplicate_guard ⟨[], false, []⟩ _ ⟨[], false, []⟩ 1 2 3 4 rfl

/-- C5: emitting an all-zero view-id state leaves the container untouched
(no named entry is created), and loading a container without the entry and
loading one with an explicit all-zero blob both leave the model state
unchanged, hence equal. -/
theorem viewid_allzero_state (st st0 : DxilViewIdState) (m mz : LLVMModule)
    (hz : ∀ x ∈ st.serialized, x = 0)
    (hnone : getNamedMetadata m kDxilViewIdStateMDName = none)
    (hzblob : getNamedMetadata mz kDxilViewIdStateMDName =
      some ⟨kDxilViewIdStateMDName, [[some (.constAggZero 32)]]⟩) :
    EmitDxilViewIdState st m = .ok m ∧
    LoadDxilViewIdState m st0 = .ok st0 ∧
    LoadDxilViewIdState mz st0 = .ok st0 := by
  refine ⟨?_, ?_, ?_⟩
  · have hany : st.serialized.any (fun e => e != 0) = false := by
      simp only [List.any_eq_false]
      intro x hx
      simp [hz x hx]
    rw [EmitDxilViewIdState, hany]
    simp
  · rw [LoadDxilViewIdState, hnone]
    rfl
  · rw [LoadDxilViewIdState, hzblob]
    simp [List.getD, IFTBOOL_pos]

/-- C5 witness: a concrete all-zero state, an empty container and a
container holding the explicit all-zero blob. -/
theorem viewid_allzero_state_witness :
    EmitDxilViewIdState ⟨[0, 0, 0]⟩ ⟨[], false, []⟩ = .ok ⟨[], false, []⟩ ∧
    LoadDxilViewIdState ⟨[], false, []⟩ ⟨[7, 8]⟩ = .ok ⟨[7, 8]⟩ ∧
    LoadDxilViewIdState
      ⟨[⟨kDxilViewIdStateMDName, [[some (.constAggZero 32)]]⟩], false, []⟩ ⟨[7, 8]⟩ =
      .ok ⟨[7, 8]⟩ :=
  viewid_allzero_state ⟨[0, 0, 0]⟩ ⟨[7, 8]⟩ ⟨[], false, []⟩
    ⟨[⟨kDxilViewIdStateMDName, [[some (.constAggZero 32)]]⟩], false, []⟩
    (by decide) rfl rfl

/-- Unknown-tag-tolerant pair loop for buffer resources preserves the
read-write flag. -/
theorem loadBufferPropPairs_rw : ∀ (ops : MDNodeOps) (R R' : DxilResource),
    loadBufferPropPairs ops R = .ok R' → R'.rw = R.rw
  | [], R, R', h => by
    simp only [loadBufferPropPairs, Except.ok.injEq] at h
    rw [← h]
  | t :: v :: rest, R, R', h => by
    simp only [loadBufferPropPairs] at h
    rw [except_bind_ok_iff] at h
    obtain ⟨Tag, -, h⟩ := h
    split at h
    · rw [except_bind_ok_iff] at h
      obtain ⟨ct, -, h⟩ := h
      have h2 := loadBufferPropPairs_rw rest _ _ h
      exact h2
    · split at h
      · rw [except_bind_ok_iff] at h
        obtain ⟨es, -, h⟩ := h
        have h2 := loadBufferPropPairs_rw rest _ _ h
        exact h2
      · exact loadBufferPropPairs_rw rest _ _ h
  | [_], R, R', h => by simp [loadBufferPropPairs] at h

/-- The SRV extended-property loader preserves the read-write flag. -/
theorem LoadSRVProperties_rw (MDO : Option Metadata) (R R' : DxilResource)
    (h : LoadSRVProperties MDO R = .ok R') : R'.rw = R.rw := by
  simp only [LoadSRVProperties] at h
  split at h
  · simp only [exceptPureOk, Except.ok.injEq] at h
    rw [← h]
  · rw [except_bind_ok_iff] at h
    obtain ⟨-, -, h⟩ := h
    have h2 := loadBufferPropPairs_rw _ _ _ h
    exact h2
  · simp at h

/-- The UAV extended-property loader preserves the read-write flag. -/
theorem LoadUAVProperties_rw (MDO : Option Metadata) (R R' : DxilResource)
    (h : LoadUAVProperties MDO R = .ok R') : R'.rw = R.rw := by
  simp only [LoadUAVProperties] at h
  split at h
  · simp only [exceptPureOk, Except.ok.injEq] at h
    rw [← h]
  · rw [except_bind_ok_iff] at h
    obtain ⟨-, -, h⟩ := h
    have h2 := loadBufferPropPairs_rw _ _ _ h
    exact h2
  · simp at h

/-- C9: whenever an SRV record load succeeds, the loaded resource's
read-write flag is false, and whenever a UAV record load succeeds it is true
— independently of the input metadata and of the caller-supplied resource's
previous flag value. -/
theorem resource_rw_classification (MDOs MDOu : Option Metadata)
    (Rs Ru Rs' Ru' : DxilResource)
    (hs : LoadDxilSRV MDOs Rs = .ok Rs') (hu : LoadDxilUAV MDOu Ru = .ok Ru') :
    Rs'.rw = false ∧ Ru'.rw = true := by
  constructor
  · simp only [LoadDxilSRV] at hs
    split at hs
    · rw [except_bind_ok_iff] at hs
      obtain ⟨-, -, hs⟩ := hs
      rw [except_bind_ok_iff] at hs
      obtain ⟨⟨id, sym, nm, sp, lb, rs⟩, -, hs⟩ := hs
      rw [except_bind_ok_iff] at hs
      obtain ⟨kd, -, hs⟩ := hs
      rw [except_bind_ok_iff] at hs
      obtain ⟨sc, -, hs⟩ := hs
      have h2 := LoadSRVProperties_rw _ _ _ hs
      exact h2
    · simp at hs
  · simp only [LoadDxilUAV] at hu
    split at hu
    · rw [except_bind_ok_iff] at hu
      obtain ⟨-, -, hu⟩ := hu
      rw [except_bind_ok_iff] at hu
      obtain ⟨⟨id, sym, nm, sp, lb, rs⟩, -, hu⟩ := hu
      rw [except_bind_ok_iff] at hu
      obtain ⟨kd, -, hu⟩ := hu
      rw [except_bind_ok_iff] at hu
      obtain ⟨gc, -, hu⟩ := hu
      rw [except_bind_ok_iff] at hu
      obtain ⟨hc, -, hu⟩ := hu
      rw [except_bind_ok_iff] at hu
      obtain ⟨rov, -, hu⟩ := hu
      have h2 := LoadUAVProperties_rw _ _ _ hu
      exact h2
    · simp at hu

/-- C9 witness: concrete SRV and UAV records loaded into resources whose
prior read-write flags disagree with the loader used. -/
theorem resource_rw_classification_witness :
    (LoadDxilSRV
      (some (.tuple [some (Uint32ToConstMD 0), some (.value 5), some (.str "t0"),
        some (Uint32ToConstMD 0), some (Uint32ToConstMD 0), some (Uint32ToConstMD 1),
        some (Uint32ToConstMD 2), some (Uint32ToConstMD 0), none]))
      ⟨1, 2, "g", 0, 0, 1, true, 10, 0, false, false, false, 7, 7⟩ =
      .ok ⟨0, 5, "t0", 0, 0, 1, false, 2, 0, false, false, false, 4, 0⟩) ∧
    (LoadDxilUAV
      (some (.tuple [some (Uint32ToConstMD 0), some (.value 5), some (.str "u0"),
        some (Uint32ToConstMD 0), some (Uint32ToConstMD 0), some (Uint32ToConstMD 1),
        some (Uint32ToConstMD 2), some (BoolToConstMD false), some (BoolToConstMD false),
        some (BoolToConstMD false), none]))
      ⟨1, 2, "g", 0, 0, 1, false, 10, 0, false, false, false, 7, 7⟩ =
      .ok ⟨0, 5, "u0", 0, 0, 1, true, 2, 0, false, false, false, 4, 0⟩) ∧
    (false = false ∧ true = true) := by
  refine ⟨by decide, by decide, ?_⟩
  exact resource_rw_classification
    (some (.tuple [some (Uint32ToConstMD 0), some (.value 5), some (.str "t0"),
      some (Uint32ToConstMD 0), some (Uint32ToConstMD 0), some (Uint32ToConstMD 1),
      some (Uint32ToConstMD 2), some (Uint32ToConstMD 0), none]))
    (some (.tuple [some (Uint32ToConstMD 0), some (.value 5), some (.str "u0"),
      some (Uint32ToConstMD 0), some (Uint32ToConstMD 0), some (Uint32ToConstMD 1),
      some (Uint32ToConstMD 2), some (BoolToConstMD false), some (BoolToConstMD false),
      some (BoolToConstMD false), none]))
    ⟨1, 2, "g", 0, 0, 1, true, 10, 0, false, false, false, 7, 7⟩
    ⟨1, 2, "g", 0, 0, 1, false, 10, 0, false, false, false, 7, 7⟩
    ⟨0, 5, "t0", 0, 0, 1, false, 2, 0, false, false, false, 4, 0⟩
    ⟨0, 5, "u0", 0, 0, 1, true, 2, 0, false, false, false, 4, 0⟩
    (by decide) (by decide)

/-- Unknown-tag-tolerant pair loop for signature-element properties changes
nothing but the output stream and the dynamic-index component mask. -/
theorem loadSigElemPropPairs_frame :
    ∀ (ops : MDNodeOps) (SE SE' : DxilSignatureElement),
    loadSigElemPropPairs ops SE = .ok SE' →
    SE'.ID = SE.ID ∧ SE'.Name = SE.Name ∧ SE'.CompTy = SE.CompTy ∧
    SE'.SemKind = SE.SemKind ∧ SE'.SemanticIndexVec = SE.SemanticIndexVec ∧
    SE'.InterpMode = SE.InterpMode ∧ SE'.Rows = SE.Rows ∧ SE'.Cols = SE.Cols ∧
    SE'.StartRow = SE.StartRow ∧ SE'.StartCol = SE.StartCol
  | [], SE, SE', h => by
    simp only [loadSigElemPropPairs, Except.ok.injEq] at h
    rw [← h]
    exact ⟨rfl, rfl, rfl, rfl, rfl, rfl, rfl, rfl, rfl, rfl⟩
  | t :: v :: rest, SE, SE', h => by
    simp only [loadSigElemPropPairs] at h
    rw [except_bind_ok_iff] at h
    obtain ⟨Tag, -, h⟩ := h
    split at h
    · rw [except_bind_ok_iff] at h
      obtain ⟨s, -, h⟩ := h
      have h2 := loadSigElemPropPairs_frame rest _ _ h
      exact h2
    · split at h
      · exact loadSigElemPropPairs_frame rest _ _ h
      · split at h
        · rw [except_bind_ok_iff] at h
          obtain ⟨s, -, h⟩ := h
          have h2 := loadSigElemPropPairs_frame rest _ _ h
          exact h2
        · exact loadSigElemPropPairs_frame rest _ _ h
  | [_], SE, SE', h => by simp [loadSigElemPropPairs] at h

/-- C10: a signature-element extended-property pair carrying the high-level
global-symbol tag loads without any failure and without modifying the
element, and any successful property load leaves every field except the
output stream and the dynamic-index component mask unchanged. -/
theorem sigelem_globalsymbol_tag_skipped (v : Metadata) (ops : MDNodeOps)
    (SE SE' : DxilSignatureElement)
    (h : LoadSignatureElementProperties (some (.tuple ops)) SE = .ok SE') :
    LoadSignatureElementProperties
      (some (.tuple [some (Uint32ToConstMD kHLSignatureElementGlobalSymbolTag), some v]))
      SE = .ok SE ∧
    SE'.ID = SE.ID ∧ SE'.Name = SE.Name ∧ SE'.CompTy = SE.CompTy ∧
    SE'.SemKind = SE.SemKind ∧ SE'.SemanticIndexVec = SE.SemanticIndexVec ∧
    SE'.InterpMode = SE.InterpMode ∧ SE'.Rows = SE.Rows ∧ SE'.Cols = SE.Cols ∧
    SE'.StartRow = SE.StartRow ∧ SE'.StartCol = SE.StartCol := by
  constructor
  · simp [LoadSignatureElementProperties, loadSigElemPropPairs, ConstMDToUint32,
      extractConstInt, Uint32ToConstMD, IFTBOOL, kHLSignatureElementGlobalSymbolTag,
      kDxilSignatureElementOutputStreamTag, kDxilSignatureElementDynIdxCompMaskTag]
  · simp only [LoadSignatureElementProperties] at h
    rw [except_bind_ok_iff] at h
    obtain ⟨-, -, h⟩ := h
    exact loadSigElemPropPairs_frame ops SE SE' h

/-- C10 witness: the global-symbol tag skipped on a concrete element, and a
concrete stream-setting property list leaving the other fields intact. -/
theorem sigelem_globalsymbol_tag_skipped_witness :
    LoadSignatureElementProperties
      (some (.tuple [some (Uint32ToConstMD kHLSignatureElementGlobalSymbolTag),
        some (.value 3)]))
      ⟨3, "X", 9, 64, [0], 1, 1, 4, 2, -1, 0, 0⟩ =
      .ok ⟨3, "X", 9, 64, [0], 1, 1, 4, 2, -1, 0, 0⟩ ∧
    (3 : Nat) = 3 ∧ "X" = "X" ∧ (9 : Nat) = 9 ∧ (64 : Nat) = 64 ∧
    [(0 : Nat)] = [0] ∧ (1 : Nat) = 1 ∧ (1 : Nat) = 1 ∧ (4 : Nat) = 4 ∧
    (2 : Int) = 2 ∧ (-1 : Int) = -1 :=
  sigelem_globalsymbol_tag_skipped (.value 3)
    [some (Uint32ToConstMD kDxilSignatureElementOutputStreamTag), some (Uint32ToConstMD 7)]
    ⟨3, "X", 9, 64, [0], 1, 1, 4, 2, -1, 0, 0⟩
    ⟨3, "X", 9, 64, [0], 1, 1, 4, 2, -1, 7, 0⟩ rfl

/-- C6 counterexample: a non-call floating-point instruction whose
relaxed-algebra flag is set is left completely untouched by the emit pass —
in particular the flag is not cleared — contradicting the claim that the
pass acts on every floating-point-producing instruction. -/
theorem precise_emit_skips_noncall_fp :
    EmitDxilPreciseMD ⟨[], false, [⟨true, false, true, false⟩]⟩ =
      ⟨[], false, [⟨true, false, true, false⟩]⟩ ∧
    (⟨true, false, true, false⟩ : Instruction).relaxedAlgebra = true :=
  ⟨rfl, rfl⟩

/-- C6 (amended): restricted to floating-point-producing *call* instructions
the claim holds: the emit pass attaches the marker when the relaxed-algebra
flag is clear and clears the flag (attaching no marker) when it is set;
non-call instructions are untouched; the load pass runs only on modules that
came from bitcode, re-sets the flag on marker-less instructions and removes
the marker — leaving the flag as it was — on marked ones. -/
theorem precise_md_passes (m : LLVMModule) (j : Nat) (d : Instruction)
    (hj : j < m.instrs.length) :
    (m.fromBitCode = false → LoadDxilPreciseMD m = m) ∧
    ((m.instrs.getD j d).isFPMath = true → (m.instrs.getD j d).isCall = true →
      ((m.instrs.getD j d).relaxedAlgebra = false →
        (EmitDxilPreciseMD m).instrs.getD j d =
          { m.instrs.getD j d with precise := true }) ∧
      ((m.instrs.getD j d).relaxedAlgebra = true →
        (EmitDxilPreciseMD m).instrs.getD j d =
          { m.instrs.getD j d with relaxedAlgebra := false, precise := false })) ∧
    (¬((m.instrs.getD j d).isFPMath = true ∧ (m.instrs.getD j d).isCall = true) →
      (EmitDxilPreciseMD m).instrs.getD j d = m.instrs.getD j d) ∧
    (m.fromBitCode = true →
      ((m.instrs.getD j d).isFPMath = true → (m.instrs.getD j d).isCall = true →
        ((m.instrs.getD j d).precise = false →
          (LoadDxilPreciseMD m).instrs.getD j d =
            { m.instrs.getD j d with relaxedAlgebra := true }) ∧
        ((m.instrs.getD j d).precise = true →
          (LoadDxilPreciseMD m).instrs.getD j d =
            { m.instrs.getD j d with precise := false })) ∧
      (¬((m.instrs.getD j d).isFPMath = true ∧ (m.instrs.getD j d).isCall = true) →
        (LoadDxilPreciseMD m).instrs.getD j d = m.instrs.getD j d)) := by
  have he : (EmitDxilPreciseMD m).instrs.getD j d =
      emitPreciseInstr (m.instrs.getD j d) := by
    simp [EmitDxilPreciseMD, List.getD_eq_getElem?_getD, List.getElem?_map,
      List.getElem?_eq_getElem hj]
  refine ⟨?_, ?_, ?_, ?_⟩
  · intro hb
    simp [LoadDxilPreciseMD, hb]
  · intro h1 h2
    refine ⟨?_, ?_⟩ <;> intro h3 <;> rw [he] <;> revert h1 h2 h3 <;>
      generalize m.instrs.getD j d = i <;> intro h1 h2 h3 <;>
      simp [emitPreciseInstr, h1, h2, h3]
  · intro h12
    rw [he]
    revert h12
    generalize m.instrs.getD j d = i
    intro h12
    have hcond : (i.isFPMath && i.isCall) ≠ true := by
      intro hx
      rw [Bool.and_eq_true] at hx
      exact h12 hx
    simp [emitPreciseInstr, hcond]
  · intro hb
    have hl : (LoadDxilPreciseMD m).instrs.getD j d =
        loadPreciseInstr (m.instrs.getD j d) := by
      simp [LoadDxilPreciseMD, hb, List.getD_eq_getElem?_getD, List.getElem?_map,
        List.getElem?_eq_getElem hj]
    refine ⟨?_, ?_⟩
    · intro h1 h2
      refine ⟨?_, ?_⟩ <;> intro h3 <;> rw [hl] <;> revert h1 h2 h3 <;>
        generalize m.instrs.getD j d = i <;> intro h1 h2 h3 <;>
        simp [loadPreciseInstr, h1, h2, h3]
    · intro h12
      rw [hl]
      revert h12
      generalize m.instrs.getD j d = i
      intro h12
      have hcond : (i.isFPMath && i.isCall) ≠ true := by
        intro hx
        rw [Bool.and_eq_true] at hx
        exact h12 hx
      simp [loadPreciseInstr, hcond]

/-- C6 witness: a one-instruction bitcode-origin module whose floating-point
call has the relaxed flag set and no marker: the emit pass clears the flag
and attaches no marker; the load pass on the original module re-sets the
flag. -/
theorem precise_md_passes_witness :
    (EmitDxilPreciseMD ⟨[], true, [⟨true, true, true, false⟩]⟩).instrs.getD 0
        ⟨false, false, false, false⟩ =
      ⟨true, true, false, false⟩ ∧
    (LoadDxilPreciseMD ⟨[], true, [⟨true, true, true, false⟩]⟩).instrs.getD 0
        ⟨false, false, false, false⟩ =
      ⟨true, true, true, false⟩ :=
  ⟨((precise_md_passes ⟨[], true, [⟨true, true, true, false⟩]⟩ 0
      ⟨false, false, false, false⟩ (by decide)).2.1 rfl rfl).2 rfl,
   (((precise_md_passes ⟨[], true, [⟨true, true, true, false⟩]⟩ 0
      ⟨false, false, false, false⟩ (by decide)).2.2.2 rfl).1 rfl rfl).1 rfl⟩

/-- C1: loading the tuple produced by emitting a signature element restores
the element field-for-field into a freshly created element (one whose
optional extended-property fields hold their zero defaults), for every
element whose fields are representable at their declared widths — the 8-bit
fields (component type, semantic kind, interpolation mode, cols, start col)
keep exactly 8 bits, so a start column of -1 decodes as int8 -1. -/
theorem signature_element_round_trip (SE SE0 : DxilSignatureElement)
    (hID : SE.ID < 4294967296) (hCT : SE.CompTy < 256) (hSK : SE.SemKind < 256)
    (hIM : SE.InterpMode < 256) (hRows : SE.Rows < 4294967296) (hCols : SE.Cols < 256)
    (hSR1 : -2147483648 ≤ SE.StartRow) (hSR2 : SE.StartRow < 2147483648)
    (hSC1 : -128 ≤ SE.StartCol) (hSC2 : SE.StartCol < 128)
    (hVec : ∀ x ∈ SE.SemanticIndexVec, x < 4294967296)
    (hOS : SE.OutputStream < 4294967296) (hDM : SE.DynIdxCompMask < 4294967296)
    (h0 : SE0.OutputStream = 0) (h1 : SE0.DynIdxCompMask = 0) :
    LoadSignatureElement (some (EmitSignatureElement SE)) SE0 = .ok SE := by
  obtain ⟨ID, Nm, CT, SK, vec, IM, Rows, Cols, SR, SC, OS, DM⟩ := SE
  obtain ⟨ID0, Nm0, CT0, SK0, vec0, IM0, Rows0, Cols0, SR0, SC0, OS0, DM0⟩ := SE0
  simp only at hID hCT hSK hIM hRows hCols hSR1 hSR2 hSC1 hSC2 hVec hOS hDM h0 h1
  subst h0 h1
  by_cases hOS0 : OS = 0 <;> by_cases hDM0 : DM = 0 <;>
    simp only [EmitSignatureElement, EmitSignatureElementProperties, hOS0, hDM0] <;>
    simp [LoadSignatureElement, LoadSignatureElementProperties, loadSigElemPropPairs,
      List.getD, IFTBOOL, hOS0, hDM0,
      kDxilSignatureElementID, kDxilSignatureElementName, kDxilSignatureElementType,
      kDxilSignatureElementSystemValue, kDxilSignatureElementIndexVector,
      kDxilSignatureElementInterpMode, kDxilSignatureElementRows,
      kDxilSignatureElementCols, kDxilSignatureElementStartRow,
      kDxilSignatureElementStartCol, kDxilSignatureElementNameValueList,
      kDxilSignatureElementNumFields, Uint32VectorToConstMDTuple,
      kDxilSignatureElementOutputStreamTag, kHLSignatureElementGlobalSymbolTag,
      kDxilSignatureElementDynIdxCompMaskTag,
      uint32_round_trip ID hID, uint8_round_trip CT hCT, uint8_round_trip SK hSK,
      uint8_round_trip IM hIM, uint32_round_trip Rows hRows, uint8_round_trip Cols hCols,
      int32_round_trip SR hSR1 hSR2, int8_round_trip SC hSC1 hSC2,
      uint32_vector_round_trip vec hVec, uint32_round_trip OS hOS,
      uint32_round_trip DM hDM, uint32_round_trip 0 (by decide),
      uint32_round_trip 2 (by decide)]

/-- C1 witness: a concrete element with start column -1 (and a non-zero
output stream exercising the sparse list) round-trips exactly. -/
theorem signature_element_round_trip_witness :
    LoadSignatureElement
      (some (EmitSignatureElement ⟨3, "SV_Target", 9, 64, [0], 1, 1, 4, 2, -1, 1, 0⟩))
      ⟨0, "", 0, 0, [], 0, 0, 0, 0, 0, 0, 0⟩ =
      .ok ⟨3, "SV_Target", 9, 64, [0], 1, 1, 4, 2, -1, 1, 0⟩ :=
  signature_element_round_trip ⟨3, "SV_Target", 9, 64, [0], 1, 1, 4, 2, -1, 1, 0⟩
    ⟨0, "", 0, 0, [], 0, 0, 0, 0, 0, 0, 0⟩
    (by decide) (by decide) (by decide) (by decide) (by decide) (by decide)
    (by decide) (by decide) (by decide) (by decide) (by decide) (by decide)
    (by decide) rfl rfl

/-- C8: a signature-element tuple whose operand count differs from the
declared arity fails to load, and a field-annotation tag-value list of odd
length fails to load. -/
theorem arity_enforcement (ops aops : MDNodeOps) (SE : DxilSignatureElement)
    (FA : DxilFieldAnnotation)
    (hlen : ops.length ≠ kDxilSignatureElementNumFields)
    (hodd : aops.length % 2 = 1) :
    LoadSignatureElement (some (.tuple ops)) SE = .error () ∧
    LoadDxilFieldAnnotation (some (.tuple aops)) FA = .error () := by
  constructor
  · simp only [LoadSignatureElement]
    rw [IFTBOOL_neg hlen]
    simp
  · simp only [ LoadDxilFieldAnnotation]
    rw [IFTBOOL_neg (by omega)]
    simp

/-- C8 witness: tuples with 9 and with 11 core fields (10 and 12 operands
with the sparse slot, against the declared 11) and an odd tag list. -/
theorem arity_enforcement_witness :
    LoadSignatureElement (some (.tuple (List.replicate 10 none)))
      ⟨0, "", 0, 0, [], 0, 0, 0, 0, 0, 0, 0⟩ = .error () ∧
    LoadSignatureElement (some (.tuple (List.replicate 12 none)))
      ⟨0, "", 0, 0, [], 0, 0, 0, 0, 0, 0, 0⟩ = .error () ∧
    LoadDxilFieldAnnotation (some (.tuple [none]))
      ⟨false, none, none, none, none, none, none⟩ = .error () :=
  ⟨(arity_enforcement (List.replicate 10 none) [none]
      ⟨0, "", 0, 0, [], 0, 0, 0, 0, 0, 0, 0⟩
      ⟨false, none, none, none, none, none, none⟩ (by decide) (by decide)).1,
   (arity_enforcement (List.replicate 12 none) [none]
      ⟨0, "", 0, 0, [], 0, 0, 0, 0, 0, 0, 0⟩
      ⟨false, none, none, none, none, none, none⟩ (by decide) (by decide)).1,
   (arity_enforcement (List.replicate 10 none) [none]
      ⟨0, "", 0, 0, [], 0, 0, 0, 0, 0, 0, 0⟩
      ⟨false, none, none, none, none, none, none⟩ (by decide) (by decide)).2⟩

/-- C7: a length-1 struct-annotation tuple loads successfully, marking the
struct empty and storing the cbuffer size, exactly when the annotated
struct's single field has the i8 marker type; with a single field of any
other type the arity check fails. -/
theorem struct_annotation_empty_marker (size c : Nat) (fa fb : DxilFieldAnnotation)
    (ty : LLVMType) (hty : ty ≠ .int 8) :
    LoadDxilStructAnnotation (some (.tuple [some (Uint32ToConstMD size)]))
      ⟨[.int 8], [fa], c⟩ = .ok ⟨[.int 8], [], size % 4294967296⟩ ∧
    LoadDxilStructAnnotation (some (.tuple [some (Uint32ToConstMD size)]))
      ⟨[ty], [fb], c⟩ = .error () := by
  constructor
  · simp [ LoadDxilStructAnnotation, IFTBOOL, uint32_emit_decode, loadStructFields,
      List.getD]
  · simp [ LoadDxilStructAnnotation, IFTBOOL, List.getD, hty]

/-- C7 witness: the empty-struct case with a concrete size and the failing
case with an i32 single field. -/
theorem struct_annotation_empty_marker_witness :
    LoadDxilStructAnnotation (some (.tuple [some (Uint32ToConstMD 16)]))
      ⟨[.int 8], [⟨false, none, none, none, none, none, none⟩], 0⟩ =
      .ok ⟨[.int 8], [], 16 % 4294967296⟩ ∧
    LoadDxilStructAnnotation (some (.tuple [some (Uint32ToConstMD 16)]))
      ⟨[.int 32], [⟨false, none, none, none, none, none, none⟩], 0⟩ = .error () :=
  struct_annotation_empty_marker 16 0
    ⟨false, none, none, none, none, none, none⟩
    ⟨false, none, none, none, none, none, none⟩
    (.int 32) (by decide)

/-- C3 counterexample: the SRV extended-property loader handed the unknown
tag 99 succeeds — the pair is skipped after the defaults are reset —
instead of raising the malformed-metadata fault the claim requires. -/
theorem srv_props_skip_unknown_tag :
    LoadSRVProperties
      (some (.tuple [some (Uint32ToConstMD 99), some (BoolToConstMD true)]))
      ⟨1, 2, "g", 0, 0, 1, true, 10, 0, false, false, false, 7, 7⟩ =
      .ok ⟨1, 2, "g", 0, 0, 1, true, 10, 0, false, false, false, 4, 0⟩ := by decide

/-- C3 (amended): an unrecognized tag makes the field-annotation loader
fail, but the SRV/UAV/CBuffer/signature-element extended-property loaders
only debug-assert and skip the pair (the resource loaders still reset the
optional fields to their context defaults first), and the sampler property
loader parses nothing at all, so it never fails. -/
theorem unknown_tag_handling (t : Nat) (v : Metadata) (MDO : Option Metadata)
    (FA : DxilFieldAnnotation) (SRV UAV : DxilResource) (CB : DxilCBuffer)
    (S : DxilSampler) (SE : DxilSignatureElement)
    (ht : t < 4294967296)
    (h0 : t ≠ kDxilFieldAnnotationPreciseTag)
    (h1 : t ≠ kDxilFieldAnnotationMatrixTag)
    (h2 : t ≠ kDxilFieldAnnotationCBufferOffsetTag)
    (h3 : t ≠ kDxilFieldAnnotationSemanticStringTag)
    (h4 : t ≠ kDxilFieldAnnotationInterpolationModeTag)
    (h5 : t ≠ kDxilFieldAnnotationFieldNameTag)
    (h6 : t ≠ kDxilFieldAnnotationCompTypeTag)
    (hr0 : t ≠ kDxilTypedBufferElementTypeTag)
    (hr1 : t ≠ kDxilStructuredBufferElementStrideTag)
    (hcb : t ≠ kHLCBufferIsTBufferTag)
    (hs0 : t ≠ kDxilSignatureElementOutputStreamTag)
    (hs1 : t ≠ kHLSignatureElementGlobalSymbolTag)
    (hs2 : t ≠ kDxilSignatureElementDynIdxCompMaskTag) :
    LoadDxilFieldAnnotation (some (.tuple [some (Uint32ToConstMD t), some v])) FA =
      .error () ∧
    LoadSRVProperties (some (.tuple [some (Uint32ToConstMD t), some v])) SRV =
      .ok { SRV with
        elementStride := if SRV.kind = DxilResourceKindRawBuffer then 1 else 4,
        compType := 0 } ∧
    LoadUAVProperties (some (.tuple [some (Uint32ToConstMD t), some v])) UAV =
      .ok { UAV with
        elementStride := if UAV.kind = DxilResourceKindRawBuffer then 1 else 4,
        compType := 0 } ∧
    LoadCBufferProperties (some (.tuple [some (Uint32ToConstMD t), some v])) CB =
      .ok { CB with kind := DxilResourceKindCBuffer } ∧
    LoadSamplerProperties MDO S = .ok S ∧
    LoadSignatureElementProperties (some (.tuple [some (Uint32ToConstMD t), some v])) SE =
      .ok SE := by
  have htag : ConstMDToUint32 (some (Uint32ToConstMD t)) = .ok t := uint32_round_trip t ht
  refine ⟨?_, ?_, ?_, ?_, rfl, ?_⟩
  · simp [ LoadDxilFieldAnnotation, loadFieldAnnotationPairs, htag, IFTBOOL,
      h0, h1, h2, h3, h4, h5, h6]
    rfl
  · simp [LoadSRVProperties, loadBufferPropPairs, htag, IFTBOOL, hr0, hr1]
  · simp [LoadUAVProperties, loadBufferPropPairs, htag, IFTBOOL, hr0, hr1]
  · simp [LoadCBufferProperties, loadCBufferPropPairs, htag, IFTBOOL, hcb]
  · simp [LoadSignatureElementProperties, loadSigElemPropPairs, htag, IFTBOOL,
      hs0, hs1, hs2]

/-- C3 witness: the unknown tag 99 exercised against every loader on
concrete records. -/
theorem unknown_tag_handling_witness :
    LoadDxilFieldAnnotation
      (some (.tuple [some (Uint32ToConstMD 99), some (BoolToConstMD true)]))
      ⟨false, none, none, none, none, none, none⟩ = .error () ∧
    LoadSRVProperties
      (some (.tuple [some (Uint32ToConstMD 99), some (BoolToConstMD true)]))
      ⟨1, 2, "g", 0, 0, 1, false, 10, 0, false, false, false, 7, 7⟩ =
      .ok ⟨1, 2, "g", 0, 0, 1, false, 10, 0, false, false, false,
        (if (10 : Nat) = DxilResourceKindRawBuffer then 1 else 4), 0⟩ ∧
    LoadUAVProperties
      (some (.tuple [some (Uint32ToConstMD 99), some (BoolToConstMD true)]))
      ⟨1, 2, "g", 0, 0, 1, true, 11, 0, false, false, false, 7, 7⟩ =
      .ok ⟨1, 2, "g", 0, 0, 1, true, 11, 0, false, false, false,
        (if (11 : Nat) = DxilResourceKindRawBuffer then 1 else 4), 0⟩ ∧
    LoadCBufferProperties
      (some (.tuple [some (Uint32ToConstMD 99), some (BoolToConstMD true)]))
      ⟨1, 2, "g", 0, 0, 1, 15, 64⟩ = .ok ⟨1, 2, "g", 0, 0, 1, DxilResourceKindCBuffer, 64⟩ ∧
    LoadSamplerProperties none ⟨1, 2, "g", 0, 0, 1, 0⟩ = .ok ⟨1, 2, "g", 0, 0, 1, 0⟩ ∧
    LoadSignatureElementProperties
      (some (.tuple [some (Uint32ToConstMD 99), some (BoolToConstMD true)]))
      ⟨3, "X", 9, 64, [0], 1, 1, 4, 2, -1, 0, 0⟩ =
      .ok ⟨3, "X", 9, 64, [0], 1, 1, 4, 2, -1, 0, 0⟩ :=
  unknown_tag_handling 99 (BoolToConstMD true) none
    ⟨false, none, none, none, none, none, none⟩
    ⟨1, 2, "g", 0, 0, 1, false, 10, 0, false, false, false, 7, 7⟩
    ⟨1, 2, "g", 0, 0, 1, true, 11, 0, false, false, false, 7, 7⟩
    ⟨1, 2, "g", 0, 0, 1, 15, 64⟩ ⟨1, 2, "g", 0, 0, 1, 0⟩
    ⟨3, "X", 9, 64, [0], 1, 1, 4, 2, -1, 0, 0⟩
    (by decide) (by decide) (by decide) (by decide) (by decide) (by decide)
    (by decide) (by decide) (by decide) (by decide) (by decide) (by decide)
    (by decide) (by decide)

end Dxil
